import Mathlib

/-!
Shallow embedding of `src/server.js`: a small Express façade over a
per-session WhatsApp messaging client.

The JavaScript program keeps an in-memory `Map` from a session identifier
to a mutable record `{ client, ready, qrDataUrl }`.  We embed that state
as an association list and every HTTP handler as a pure state-passing
function that also returns the trace of adapter interactions it performed
(`initialize` calls and `sendMessage` calls), so that "the adapter is
never invoked" and "the registry is not touched" become statable
properties.  The external messaging client adapter is a parameter: its
`sendMessage` is a function from (client identifier, chat identifier,
message text) to an `Except`, success or a failure message, mirroring a
resolved or rejected promise.  The QR encoder result is likewise passed
to the event callback as an `Except`, mirroring `QRCode.toDataURL`
resolving or rejecting.
-/

namespace Server

/-- One registry entry, from `const session = { client, ready: false, qrDataUrl: null }`
(`src/server.js` line 32).  The `client` handle is a `Client` built with
`new LocalAuth({ clientId: sessionId })`, so we represent the adapter
instance by the identifier it is scoped to. -/
structure Session where
  clientId : String
  ready : Bool
  qrDataUrl : Option String
  deriving DecidableEq, Repr

/-- The module-level `const sessions = new Map()` (line 19), embedded as an
association list from session identifier to session state. -/
abbrev Registry := List (String × Session)

/-- First entry with the given key, the embedding of `sessions.get(id)`. -/
def find? (reg : Registry) (id : String) : Option Session :=
  match reg with
  | [] => none
  | p :: rest => if p.1 == id then some p.2 else find? rest id

/-- JavaScript truthiness of a request field: `!x` is true when the field is
absent (`undefined`) or the empty string; `truthy x` is the negation. -/
def truthy : Option String → Bool
  | none => false
  | some s => !(s == "")

/-- The adapter's `sendMessage`, abstracted: given the client identifier,
the chat identifier and the text it either resolves (`Except.ok`) or
rejects with a failure message carried by `err.message` (`Except.error`). -/
abbrev Adapter := String → String → String → Except String Unit

/-- One recorded `client.sendMessage(chatId, text)` invocation:
(client identifier, chat identifier, text). -/
abbrev SendCall := String × String × String

/-- Result of `initSession` (lines 22-68): the returned session, the
registry afterwards, and the `client.initialize()` calls triggered
(identified by the client's scoped identifier). -/
structure InitSessionResult where
  session : Session
  registry : Registry
  inits : List String
  deriving DecidableEq, Repr

/-- Embedding of `initSession(sessionId)` (lines 22-68): return the
existing entry unchanged if present; otherwise build a client scoped to
the identifier, store `\x7b client, ready: false, qrDataUrl: null \x7d`,
trigger (without awaiting) `client.initialize()`, and return the new
session.  Event-handler wiring is implicit: every session's callbacks are
the functions `applyEvent` below, keyed by the session. -/
def initSession (reg : Registry) (sessionId : String) : InitSessionResult :=
  match find? reg sessionId with
  | some s => ⟨s, reg, []⟩
  | none =>
    let session : Session := ⟨sessionId, false, none⟩
    ⟨session, reg ++ [(sessionId, session)], [sessionId]⟩

/-- An adapter lifecycle event, as wired in `initSession`:
`qr` carries the outcome of `QRCode.toDataURL(qr)` (resolved data URL or
rejection), `ready`, `auth_failure` with its message, `disconnected` with
its reason. -/
inductive AdapterEvent where
  | qr (encoded : Except String String)
  | ready
  | authFailure (msg : String)
  | disconnected (reason : String)
  deriving Repr

/-- Embedding of the four event callbacks registered in `initSession`
(lines 36-64), acting on the owning session; the second component is the
list of `client.initialize()` calls the callback triggers.
`qr` (lines 36-44): on encoding success store the data URL, on failure
log and leave the field unchanged (the `try/catch` swallows the error, so
the callback never throws).  `ready` (lines 47-50): set `ready = true`.
`auth_failure` (lines 53-56): set `ready = false`.  `disconnected`
(lines 59-64): set `ready = false`, clear `qrDataUrl`, then call
`client.initialize()` on the same client. -/
def applyEvent (s : Session) : AdapterEvent → Session × List String
  | .qr (.ok dataUrl) => ({ s with qrDataUrl := some dataUrl }, [])
  | .qr (.error _) => (s, [])
  | .ready => ({ s with ready := true }, [])
  | .authFailure _ => ({ s with ready := false }, [])
  | .disconnected _ => ({ s with ready := false, qrDataUrl := none }, [s.clientId])

/-- Replace the value stored at a key, keeping the entry in place: the
embedding of an event callback mutating the session object that the map
already holds (the `Map` entry itself is never re-`set`). -/
def setEntry (reg : Registry) (id : String) (s : Session) : Registry :=
  reg.map (fun p => if p.1 == id then (p.1, s) else p)

/-- Deliver an adapter event to the session registered under `id`: the
callbacks close over that session object, so the registry entry is
updated in place; an event for an unknown identifier has no target and
changes nothing. -/
def dispatchEvent (reg : Registry) (id : String) (ev : AdapterEvent) :
    Registry × List String :=
  match find? reg id with
  | none => (reg, [])
  | some s =>
    let r := applyEvent s ev
    (setEntry reg id r.1, r.2)

/-- Body of a `GET /register` response: either `\x7b error: msg \x7d` or
`\x7b qrDataUrl: v \x7d` with `v` the encoded image or `null`. -/
inductive RegisterBody where
  | err (msg : String)
  | qrDataUrl (v : Option String)
  deriving DecidableEq, Repr

/-- Full result of the `GET /register` handler: HTTP status, JSON body,
registry afterwards, `initialize` calls triggered. -/
structure RegisterResult where
  status : Nat
  body : RegisterBody
  registry : Registry
  inits : List String
  deriving DecidableEq, Repr

/-- Embedding of the `GET /register` handler (lines 71-78): 400 when
`sessionId` is falsy, otherwise `initSession` then respond with the
session's `qrDataUrl` (null if no QR was generated yet). -/
def registerHandler (reg : Registry) (sessionId : Option String) : RegisterResult :=
  if truthy sessionId then
    let r := initSession reg (sessionId.getD "")
    ⟨200, .qrDataUrl r.session.qrDataUrl, r.registry, r.inits⟩
  else
    ⟨400, .err "Missing sessionId", reg, []⟩

/-- Body of a `GET /health` response: `\x7b error: msg \x7d` or
`\x7b status: v \x7d`. -/
inductive HealthBody where
  | err (msg : String)
  | statusField (v : String)
  deriving DecidableEq, Repr

/-- Full result of the `GET /health` handler: HTTP status, JSON body and
the registry afterwards. -/
structure HealthResult where
  status : Nat
  body : HealthBody
  registry : Registry
  deriving DecidableEq, Repr

/-- Embedding of the `GET /health` handler (lines 81-90): 400 when
`sessionId` is falsy; otherwise a plain `sessions.get` lookup —
"initializing" when the entry is absent or not ready, "ready" when ready.
The handler performs no `sessions.set`, so the registry is returned
unchanged. -/
def healthHandler (reg : Registry) (sessionId : Option String) : HealthResult :=
  if truthy sessionId then
    match find? reg (sessionId.getD "") with
    | none => ⟨200, .statusField "initializing", reg⟩
    | some s => ⟨200, .statusField (if s.ready then "ready" else "initializing"), reg⟩
  else
    ⟨400, .err "Missing sessionId", reg⟩

/-- Body of a `POST /send` response: `\x7b error: msg \x7d` or
`\x7b success: true \x7d`. -/
inductive PostSendBody where
  | err (msg : String)
  | success
  deriving DecidableEq, Repr

/-- Full result of the `POST /send` handler: HTTP status, JSON body,
registry afterwards and the `sendMessage` calls performed. -/
structure PostSendResult where
  status : Nat
  body : PostSendBody
  registry : Registry
  sends : List SendCall
  deriving DecidableEq, Repr

/-- The fixed domain suffix appended to the caller-supplied recipient:
`const chatId = ` followed by the template `$\x7bto\x7d@c.us` (lines
105 and 128, identical in both handlers). -/
def toChatId (to' : String) : String := to' ++ "@c.us"

/-- Embedding of the `POST /send` handler (lines 93-112): 400 when any of
`sessionId`, `to`, `text` is falsy (before any registry lookup); 503
"Session not ready" when the session is absent or not ready (before any
adapter call); otherwise call `sendMessage(chatId, text)` on the
session's client and answer `\x7b success: true \x7d` on resolution or
500 with `err.message` on rejection. -/
def postSend (adapter : Adapter) (reg : Registry)
    (sessionId to' text : Option String) : PostSendResult :=
  if truthy sessionId && truthy to' && truthy text then
    match find? reg (sessionId.getD "") with
    | none => ⟨503, .err "Session not ready", reg, []⟩
    | some session =>
      if session.ready then
        let chatId := toChatId (to'.getD "")
        match adapter session.clientId chatId (text.getD "") with
        | .ok _ => ⟨200, .success, reg, [(session.clientId, chatId, text.getD "")]⟩
        | .error m => ⟨500, .err m, reg, [(session.clientId, chatId, text.getD "")]⟩
      else ⟨503, .err "Session not ready", reg, []⟩
  else
    ⟨400, .err "Missing sessionId, to, or text", reg, []⟩

/-- Full result of the `GET /send` handler: HTTP status, plain text body,
registry afterwards and the `sendMessage` calls performed. -/
structure GetSendResult where
  status : Nat
  text : String
  registry : Registry
  sends : List SendCall
  deriving DecidableEq, Repr

/-- Embedding of the `GET /send` handler (lines 115-135): the same guard
structure as `POST /send` but with plain-text responses; note the 500
branch sends the fixed string "❌ Failed to send message" and not
`err.message`. -/
def getSend (adapter : Adapter) (reg : Registry)
    (sessionId to' text : Option String) : GetSendResult :=
  if truthy sessionId && truthy to' && truthy text then
    match find? reg (sessionId.getD "") with
    | none => ⟨503, "⏳ Session not ready", reg, []⟩
    | some session =>
      if session.ready then
        let chatId := toChatId (to'.getD "")
        match adapter session.clientId chatId (text.getD "") with
        | .ok _ => ⟨200, "✅ Message sent successfully!", reg, [(session.clientId, chatId, text.getD "")]⟩
        | .error _ => ⟨500, "❌ Failed to send message", reg, [(session.clientId, chatId, text.getD "")]⟩
      else ⟨503, "⏳ Session not ready", reg, []⟩
  else
    ⟨400, "❌ Missing sessionId, to, or text", reg, []⟩

/-- Spec-side plain-text rendering of a send outcome, from the spec's
description of the link form: "plain human-readable text responses
(success / not-ready / missing-fields / failure messages)".  Used to
state the refinement between the two send forms. -/
def plainTextFor (status : Nat) : String :=
  if status = 400 then "❌ Missing sessionId, to, or text"
  else if status = 503 then "⏳ Session not ready"
  else if status = 200 then "✅ Message sent successfully!"
  else "❌ Failed to send message"

/-! ### Helper lemmas about the association-list registry -/

theorem find?_append_some (reg l : Registry) (id : String) (s : Session)
    (h : find? reg id = some s) : find? (reg ++ l) id = some s := by
  induction reg with
  | nil => simp [find?] at h
  | cons p rest ih =>
    by_cases hp : (p.1 == id) = true
    · simpa [find?, hp] using h
    · simp only [find?, hp] at h
      simpa [find?, hp] using ih h

theorem find?_append_of_none (reg l : Registry) (id : String)
    (h : find? reg id = none) : find? (reg ++ l) id = find? l id := by
  induction reg with
  | nil => simp
  | cons p rest ih =>
    by_cases hp : (p.1 == id) = true
    · simp [find?, hp] at h
    · simp only [find?, hp] at h
      simpa [find?, hp] using ih h

theorem countP_eq_zero_of_find?_none (reg : Registry) (id : String)
    (h : find? reg id = none) : reg.countP (fun p => p.1 == id) = 0 := by
  induction reg with
  | nil => simp
  | cons p rest ih =>
    by_cases hp : (p.1 == id) = true
    · simp [find?, hp] at h
    · simp only [find?, hp] at h
      simp [List.countP_cons, hp, ih h]

theorem find?_setEntry_self (reg : Registry) (id : String) (s s' : Session)
    (h : find? reg id = some s) : find? (setEntry reg id s') id = some s' := by
  induction reg with
  | nil => simp [find?] at h
  | cons p rest ih =>
    by_cases hp : (p.1 == id) = true
    · simp [setEntry, find?, hp]
    · simp only [find?, hp] at h
      simpa [setEntry, find?, hp] using ih h

theorem find?_setEntry_ne (reg : Registry) (id id' : String) (s' : Session)
    (h : (id' == id) = false) : find? (setEntry reg id s') id' = find? reg id' := by
  induction reg with
  | nil => simp [setEntry, find?]
  | cons p rest ih =>
    simp only [setEntry, beq_iff_eq] at ih
    by_cases hp : (p.1 == id) = true
    · have hpid : p.1 = id := by simpa using hp
      have hne : (p.1 == id') = false := by
        have : id' ≠ id := by simpa using h
        simp [hpid]
        exact fun hcontra => this hcontra.symm
      simp [setEntry, find?, hp, hne, ih]
    · simp [setEntry, find?, hp, ih]

theorem setEntry_length (reg : Registry) (id : String) (s : Session) :
    (setEntry reg id s).length = reg.length := by
  simp [setEntry]

theorem postSend_registry_eq (adapter : Adapter) (reg : Registry)
    (sessionId to' text : Option String) :
    (postSend adapter reg sessionId to' text).registry = reg := by
  by_cases hc : (truthy sessionId && truthy to' && truthy text) = true
  · cases hf : find? reg (sessionId.getD "") with
    | none => simp [postSend, hc, hf]
    | some s =>
      cases hr : s.ready with
      | false => simp [postSend, hc, hf, hr]
      | true =>
        cases hm : adapter s.clientId (toChatId (to'.getD "")) (text.getD "") <;>
          simp [postSend, hc, hf, hr, hm]
  · simp [postSend, hc]

theorem getSend_registry_eq (adapter : Adapter) (reg : Registry)
    (sessionId to' text : Option String) :
    (getSend adapter reg sessionId to' text).registry = reg := by
  by_cases hc : (truthy sessionId && truthy to' && truthy text) = true
  · cases hf : find? reg (sessionId.getD "") with
    | none => simp [getSend, hc, hf]
    | some s =>
      cases hr : s.ready with
      | false => simp [getSend, hc, hf, hr]
      | true =>
        cases hm : adapter s.clientId (toChatId (to'.getD "")) (text.getD "") <;>
          simp [getSend, hc, hf, hr, hm]
  · simp [getSend, hc]

/-! ### Claims -/

/-- Claim C4: `initSession` is idempotent — an identifier that already has a
registry entry gets that session back unchanged, with no registry change
and no `initialize` call; an identifier with at most one entry still has
at most one entry afterwards; and calling Register twice in succession
with no intervening event yields the same body and registry the second
time, creating nothing. -/
theorem getOrCreateIdempotent (reg : Registry) (id : String) :
    (∀ s, find? reg id = some s → initSession reg id = ⟨s, reg, []⟩) ∧
    (∀ id', reg.countP (fun p => p.1 == id') ≤ 1 →
       ((initSession reg id).registry.countP (fun p => p.1 == id')) ≤ 1) ∧
    (∀ sid, truthy sid = true →
       registerHandler (registerHandler reg sid).registry sid =
         ⟨200, (registerHandler reg sid).body,
          (registerHandler reg sid).registry, []⟩) := by
  refine ⟨?_, ?_, ?_⟩
  · intro s hf
    simp [initSession, hf]
  · intro id' hle
    cases hf : find? reg id with
    | some s => simpa [initSession, hf] using hle
    | none =>
      by_cases hid : (id == id') = true
      · have hpid : id = id' := by simpa using hid
        subst hpid
        have h0 : reg.countP (fun p => p.1 == id) = 0 :=
          countP_eq_zero_of_find?_none reg id hf
        simp [initSession, hf, List.countP_append, h0, List.countP_cons]
      · simp only [initSession, hf, List.countP_append, List.countP_cons]
        simpa [hid] using hle
  · intro sid hsid
    cases hf : find? reg (sid.getD "") with
    | some s => simp [registerHandler, hsid, initSession, hf]
    | none =>
      have hfind : find? (reg ++ [(sid.getD "", ⟨sid.getD "", false, none⟩)])
          (sid.getD "") = some ⟨sid.getD "", false, none⟩ := by
        rw [find?_append_of_none _ _ _ hf]
        simp [find?]
      simp [registerHandler, hsid, initSession, hf, hfind]

/-- Witness for C4: a second `initSession` for an already-registered
identifier returns the stored session and leaves the registry alone, and a
second Register call for a fresh identifier repeats the first call's body
and registry while triggering no initialization. -/
theorem getOrCreateIdempotentWitness :
    initSession [("s1", ⟨"s1", true, some "img"⟩)] "s1" =
      ⟨⟨"s1", true, some "img"⟩, [("s1", ⟨"s1", true, some "img"⟩)], []⟩ ∧
    registerHandler (registerHandler [] (some "s1")).registry (some "s1") =
      ⟨200, (registerHandler [] (some "s1")).body,
       (registerHandler [] (some "s1")).registry, []⟩ := by
  have h1 := getOrCreateIdempotent [("s1", ⟨"s1", true, some "img"⟩)] "s1"
  have h2 := getOrCreateIdempotent ([] : Registry) "s1"
  exact ⟨h1.1 ⟨"s1", true, some "img"⟩ (by decide), h2.2.2 (some "s1") (by decide)⟩

/-- Claim C5: for an identifier not yet registered, `initSession` builds an
adapter instance scoped to that identifier, stores a fresh session with
`ready = false` and `qrDataUrl = null`, triggers exactly one
`client.initialize()` call, and returns the new session — so the first
Register response for an unseen identifier carries a null pairing image. -/
theorem getOrCreateFresh (reg : Registry) (id : String)
    (habs : find? reg id = none) (hne : (id == "") = false) :
    initSession reg id =
      ⟨⟨id, false, none⟩, reg ++ [(id, ⟨id, false, none⟩)], [id]⟩ ∧
    registerHandler reg (some id) =
      ⟨200, .qrDataUrl none, reg ++ [(id, ⟨id, false, none⟩)], [id]⟩ := by
  constructor
  · simp [initSession, habs]
  · simp [registerHandler, truthy, hne, initSession, habs]

/-- Witness for C5: registering the unseen identifier "s1" against the
empty registry stores `⟨"s1", false, none⟩`, fires one initialize call and
answers with a null pairing image. -/
theorem getOrCreateFreshWitness :
    initSession [] "s1" =
      ⟨⟨"s1", false, none⟩, [("s1", ⟨"s1", false, none⟩)], ["s1"]⟩ ∧
    registerHandler [] (some "s1") =
      ⟨200, .qrDataUrl none, [("s1", ⟨"s1", false, none⟩)], ["s1"]⟩ :=
  getOrCreateFresh [] "s1" rfl (by decide)

/-- Claim C6: Health is a pure read — it returns the registry untouched,
reports "ready" exactly when the session exists with its ready flag set
and "initializing" otherwise (absent or unready), and no HTTP handler
mutates an existing session's fields: both Send forms return the registry
unchanged and Register preserves every existing entry as it was. -/
theorem healthPureRead (reg : Registry) (sid sid2 : Option String)
    (adapter : Adapter) (a b c : Option String) :
    (healthHandler reg sid).registry = reg ∧
    (truthy sid = true →
       healthHandler reg sid =
         ⟨200, .statusField
            (if (find? reg (sid.getD "")).elim false Session.ready
             then "ready" else "initializing"), reg⟩) ∧
    (postSend adapter reg a b c).registry = reg ∧
    (getSend adapter reg a b c).registry = reg ∧
    (∀ id' s, find? reg id' = some s →
       find? (registerHandler reg sid2).registry id' = some s) := by
  refine ⟨?_, ?_, postSend_registry_eq adapter reg a b c,
    getSend_registry_eq adapter reg a b c, ?_⟩
  · by_cases hsid : truthy sid = true
    · cases hf : find? reg (sid.getD "") <;> simp [healthHandler, hsid, hf]
    · simp [healthHandler, hsid]
  · intro hsid
    cases hf : find? reg (sid.getD "") with
    | none => simp [healthHandler, hsid, hf]
    | some s => cases hr : s.ready <;> simp [healthHandler, hsid, hf, hr]
  · intro id' s hf
    by_cases hsid : truthy sid2 = true
    · cases hf2 : find? reg (sid2.getD "") with
      | some s2 => simp [registerHandler, hsid, initSession, hf2, hf]
      | none =>
        simp only [registerHandler, hsid, initSession, hf2, if_true]
        exact find?_append_some reg _ id' s hf
    · simp [registerHandler, hsid, hf]

/-- Witness for C6: with one ready session "s1" stored, Health for "s1"
answers "ready" with the registry unchanged, and a Register call for the
different identifier "s2" leaves the "s1" entry exactly as it was. -/
theorem healthPureReadWitness :
    (healthHandler [("s1", ⟨"s1", true, some "img"⟩)] (some "s1")).registry =
      [("s1", ⟨"s1", true, some "img"⟩)] ∧
    healthHandler [("s1", ⟨"s1", true, some "img"⟩)] (some "s1") =
      ⟨200, .statusField "ready", [("s1", ⟨"s1", true, some "img"⟩)]⟩ ∧
    find? (registerHandler [("s1", ⟨"s1", true, some "img"⟩)]
        (some "s2")).registry "s1" = some ⟨"s1", true, some "img"⟩ := by
  have h := healthPureRead [("s1", ⟨"s1", true, some "img"⟩)] (some "s1")
    (some "s2") (fun _ _ _ => Except.ok ()) none none none
  refine ⟨h.1, ?_, h.2.2.2.2 "s1" ⟨"s1", true, some "img"⟩ (by decide)⟩
  have h2 := h.2.1 (by decide)
  simpa [find?] using h2

/-- Claim C2: for every Send request (POST or GET form) in which any one of
`sessionId`, `to`, `text` is falsy, the handler answers 400 with the
missing-fields error, the registry is returned untouched and no adapter
`sendMessage` call is performed. -/
theorem sendMissingFieldRejected (adapter : Adapter) (reg : Registry)
    (sessionId to' text : Option String)
    (h : truthy sessionId = false ∨ truthy to' = false ∨ truthy text = false) :
    postSend adapter reg sessionId to' text =
      ⟨400, .err "Missing sessionId, to, or text", reg, []⟩ ∧
    getSend adapter reg sessionId to' text =
      ⟨400, "❌ Missing sessionId, to, or text", reg, []⟩ := by
  have hc : (truthy sessionId && truthy to' && truthy text) = false := by
    rcases h with h | h | h <;> simp [h]
  exact ⟨by simp [postSend, hc], by simp [getSend, hc]⟩

/-- Witness for C2: a concrete POST /send and GET /send with `sessionId`
absent are both rejected with 400 and an empty send trace. -/
theorem sendMissingFieldRejectedWitness :
    postSend (fun _ _ _ => Except.ok ()) [] none (some "777") (some "hi") =
      ⟨400, .err "Missing sessionId, to, or text", [], []⟩ ∧
    getSend (fun _ _ _ => Except.ok ()) [] none (some "777") (some "hi") =
      ⟨400, "❌ Missing sessionId, to, or text", [], []⟩ :=
  sendMissingFieldRejected (fun _ _ _ => Except.ok ()) [] none (some "777")
    (some "hi") (Or.inl rfl)

/-- Claim C3: for every Send request with all three fields present, if the
session is absent from the registry or its ready flag is false, both
handlers answer 503 "Session not ready" — a status distinct from the 400
validation rejection and the 500 adapter-failure rejection — and the
adapter's `sendMessage` is not invoked. -/
theorem sendNotReadyRejected (adapter : Adapter) (reg : Registry)
    (sessionId to' text : Option String)
    (hs : truthy sessionId = true) (ht : truthy to' = true)
    (hx : truthy text = true)
    (hnr : Option.all (fun s => !s.ready) (find? reg (sessionId.getD "")) = true) :
    postSend adapter reg sessionId to' text =
      ⟨503, .err "Session not ready", reg, []⟩ ∧
    getSend adapter reg sessionId to' text =
      ⟨503, "⏳ Session not ready", reg, []⟩ ∧
    (postSend adapter reg sessionId to' text).status ≠ 400 ∧
    (postSend adapter reg sessionId to' text).status ≠ 500 ∧
    (getSend adapter reg sessionId to' text).status ≠ 400 ∧
    (getSend adapter reg sessionId to' text).status ≠ 500 := by
  cases hf : find? reg (sessionId.getD "") with
  | none =>
    refine ⟨?_, ?_, ?_, ?_, ?_, ?_⟩ <;> simp [postSend, getSend, hs, ht, hx, hf]
  | some s =>
    rw [hf] at hnr
    have hr : s.ready = false := by simpa [Option.all] using hnr
    refine ⟨?_, ?_, ?_, ?_, ?_, ?_⟩ <;> simp [postSend, getSend, hs, ht, hx, hf, hr]

/-- Witness for C3: sending to a registered but unready session is rejected
with 503 and an empty send trace. -/
theorem sendNotReadyRejectedWitness :
    postSend (fun _ _ _ => Except.ok ()) [("s1", ⟨"s1", false, none⟩)]
        (some "s1") (some "777") (some "hi") =
      ⟨503, .err "Session not ready", [("s1", ⟨"s1", false, none⟩)], []⟩ ∧
    getSend (fun _ _ _ => Except.ok ()) [("s1", ⟨"s1", false, none⟩)]
        (some "s1") (some "777") (some "hi") =
      ⟨503, "⏳ Session not ready", [("s1", ⟨"s1", false, none⟩)], []⟩ := by
  have h := sendNotReadyRejected (fun _ _ _ => Except.ok ())
    [("s1", ⟨"s1", false, none⟩)] (some "s1") (some "777") (some "hi")
    (by decide) (by decide) (by decide) (by decide)
  exact ⟨h.1, h.2.1⟩

/-- Claim C8: the `qr` event callback stores the encoded data URL into
`qrDataUrl` when encoding succeeds; when encoding fails it leaves the
session — in particular `qrDataUrl` — unchanged at its previous value and
triggers no re-initialization (the callback catches the error rather than
throwing; it is a total function here). -/
theorem qrEventStoresOrKeeps (s : Session) (dataUrl errMsg : String) :
    applyEvent s (.qr (.ok dataUrl)) = ({ s with qrDataUrl := some dataUrl }, []) ∧
    applyEvent s (.qr (.error errMsg)) = (s, []) ∧
    (applyEvent s (.qr (.error errMsg))).1.qrDataUrl = s.qrDataUrl := by
  exact ⟨rfl, rfl, rfl⟩

/-- Claim C10: an empty-string value for a required field is falsy in
JavaScript, so every endpoint treats it exactly like an absent field:
Register and Health answer 400 with the registry untouched, and both Send
forms behave identically to the absent-field case (hence 400, no adapter
call); consequently no session keyed by the empty string is ever created
by a handler. -/
theorem emptyStringTreatedAsMissing (adapter : Adapter) (reg : Registry)
    (sid to' text : Option String) :
    registerHandler reg (some "") = ⟨400, .err "Missing sessionId", reg, []⟩ ∧
    registerHandler reg (some "") = registerHandler reg none ∧
    healthHandler reg (some "") = ⟨400, .err "Missing sessionId", reg⟩ ∧
    healthHandler reg (some "") = healthHandler reg none ∧
    postSend adapter reg (some "") to' text = postSend adapter reg none to' text ∧
    postSend adapter reg sid (some "") text = postSend adapter reg sid none text ∧
    postSend adapter reg sid to' (some "") = postSend adapter reg sid to' none ∧
    getSend adapter reg (some "") to' text = getSend adapter reg none to' text ∧
    getSend adapter reg sid (some "") text = getSend adapter reg sid none text ∧
    getSend adapter reg sid to' (some "") = getSend adapter reg sid to' none ∧
    (postSend adapter reg (some "") to' text).status = 400 ∧
    (postSend adapter reg (some "") to' text).sends = [] ∧
    (registerHandler reg (some "")).registry = reg := by
  refine ⟨rfl, rfl, rfl, rfl, ?_, ?_, ?_, ?_, ?_, ?_, ?_, ?_, rfl⟩ <;>
    simp [postSend, getSend, truthy]

/-- Claim C7: the `disconnected` callback sets `ready` to false, clears
`qrDataUrl` to null and re-triggers initialization on the same adapter
instance (the same `clientId`); at registry level the existing entry is
updated in place — same key, same length, every other entry untouched —
never replaced by a new one. -/
theorem disconnectedResetsAndReinitializes (s : Session) (reason : String)
    (reg : Registry) (id : String) (hf : find? reg id = some s) :
    applyEvent s (.disconnected reason) =
      ({ s with ready := false, qrDataUrl := none }, [s.clientId]) ∧
    (applyEvent s (.disconnected reason)).1.clientId = s.clientId ∧
    dispatchEvent reg id (.disconnected reason) =
      (setEntry reg id { s with ready := false, qrDataUrl := none },
       [s.clientId]) ∧
    find? (dispatchEvent reg id (.disconnected reason)).1 id =
      some { s with ready := false, qrDataUrl := none } ∧
    (dispatchEvent reg id (.disconnected reason)).1.length = reg.length ∧
    (∀ id', (id' == id) = false →
       find? (dispatchEvent reg id (.disconnected reason)).1 id' =
         find? reg id') := by
  refine ⟨rfl, rfl, ?_, ?_, ?_, ?_⟩
  · simp [dispatchEvent, hf, applyEvent]
  · simp only [dispatchEvent, hf, applyEvent]
    exact find?_setEntry_self reg id s _ hf
  · cases hfd : find? reg id <;> simp [dispatchEvent, hfd, setEntry_length]
  · intro id' hne
    simp only [dispatchEvent, hf, applyEvent]
    exact find?_setEntry_ne reg id id' _ hne

/-- Witness for C7: disconnecting the ready session "s1" (stored with a
pairing image) resets it to `⟨"s1", false, none⟩`, re-initializes client
"s1", and the registry still maps "s1" to the reset entry. -/
theorem disconnectedResetsWitness :
    applyEvent ⟨"s1", true, some "img"⟩ (.disconnected "NAVIGATION") =
      (⟨"s1", false, none⟩, ["s1"]) ∧
    find? (dispatchEvent [("s1", ⟨"s1", true, some "img"⟩)] "s1"
        (.disconnected "NAVIGATION")).1 "s1" = some ⟨"s1", false, none⟩ ∧
    (dispatchEvent [("s1", ⟨"s1", true, some "img"⟩)] "s1"
        (.disconnected "NAVIGATION")).2 = ["s1"] := by
  have h := disconnectedResetsAndReinitializes ⟨"s1", true, some "img"⟩
    "NAVIGATION" [("s1", ⟨"s1", true, some "img"⟩)] "s1" (by decide)
  exact ⟨h.1, h.2.2.2.1, by rw [h.2.2.1]⟩

/-- Claim C9: both Send forms perform exactly the same `sendMessage`
invocations, and every invocation that reaches the adapter addresses the
caller-supplied recipient with the fixed domain suffix "@c.us" appended —
a pure string transform — and carries the caller's text verbatim. -/
theorem recipientSuffixFixed (adapter : Adapter) (reg : Registry)
    (sessionId to' text : Option String) :
    (postSend adapter reg sessionId to' text).sends =
      (getSend adapter reg sessionId to' text).sends ∧
    (∀ call ∈ (postSend adapter reg sessionId to' text).sends,
       call.2.1 = toChatId (to'.getD "") ∧
       call.2.1 = to'.getD "" ++ "@c.us" ∧
       call.2.2 = text.getD "") := by
  by_cases hc : (truthy sessionId && truthy to' && truthy text) = true
  · cases hf : find? reg (sessionId.getD "") with
    | none => simp [postSend, getSend, hc, hf]
    | some s =>
      cases hr : s.ready with
      | false => simp [postSend, getSend, hc, hf, hr]
      | true =>
        cases hm : adapter s.clientId (toChatId (to'.getD "")) (text.getD "") with
        | ok u =>
          constructor
          · simp [postSend, getSend, hc, hf, hr, hm]
          · intro call hcall
            simp only [postSend, hc, hf, hr, hm, if_true,
              List.mem_singleton] at hcall
            simp [hcall, toChatId]
        | error m =>
          constructor
          · simp [postSend, getSend, hc, hf, hr, hm]
          · intro call hcall
            simp only [postSend, hc, hf, hr, hm, if_true,
              List.mem_singleton] at hcall
            simp [hcall, toChatId]
  · simp [postSend, getSend, hc]

/-- Witness for C9: a successful concrete send for recipient "777" reaches
the adapter addressed to "777@c.us" with the caller's text "hi". -/
theorem recipientSuffixFixedWitness :
    "777@c.us" = toChatId "777" ∧
    "777@c.us" = "777" ++ "@c.us" ∧ "hi" = "hi" := by
  have h := (recipientSuffixFixed (fun _ _ _ => Except.ok ())
    [("s1", ⟨"s1", true, none⟩)] (some "s1") (some "777") (some "hi")).2
    ("s1", "777@c.us", "hi") (by decide)
  exact h

/-- Claim C1 counterexample: with the same ready session, two adapters that
fail with different underlying messages ("boom A" / "boom B") produce the
identical GET /send 500 text "❌ Failed to send message", while POST /send
reports the two distinct messages — so the link form's adapter-failure
response does not carry the adapter's underlying failure message, contrary
to the claim that it differs from the command form only in rendering. -/
theorem linkFormDropsAdapterMessage :
    (getSend (fun _ _ _ => Except.error "boom A")
      [("s1", ⟨"s1", true, none⟩)] (some "s1") (some "777") (some "hi")).status
        = 500 ∧
    (getSend (fun _ _ _ => Except.error "boom A")
      [("s1", ⟨"s1", true, none⟩)] (some "s1") (some "777") (some "hi")).text =
      (getSend (fun _ _ _ => Except.error "boom B")
        [("s1", ⟨"s1", true, none⟩)] (some "s1") (some "777") (some "hi")).text ∧
    (postSend (fun _ _ _ => Except.error "boom A")
      [("s1", ⟨"s1", true, none⟩)] (some "s1") (some "777") (some "hi")).body =
      .err "boom A" ∧
    (postSend (fun _ _ _ => Except.error "boom B")
      [("s1", ⟨"s1", true, none⟩)] (some "s1") (some "777") (some "hi")).body =
      .err "boom B" ∧
    (postSend (fun _ _ _ => Except.error "boom A")
      [("s1", ⟨"s1", true, none⟩)] (some "s1") (some "777") (some "hi")).body ≠
      (postSend (fun _ _ _ => Except.error "boom B")
        [("s1", ⟨"s1", true, none⟩)] (some "s1") (some "777") (some "hi")).body := by
  refine ⟨rfl, rfl, rfl, rfl, ?_⟩
  decide

/-- Claim C1 (amended): the link-form Send has the same semantics as the
command-form Send for identical inputs — same 400/503/200/500 status, same
(absent) registry effect, same adapter invocations — with the body rendered
as the fixed plain text for that status class; in particular the 500
response is the fixed text "❌ Failed to send message", which does not
carry the adapter's underlying failure message. -/
theorem linkFormRefinesCommandForm (adapter : Adapter) (reg : Registry)
    (sessionId to' text : Option String) :
    getSend adapter reg sessionId to' text =
      ⟨(postSend adapter reg sessionId to' text).status,
       plainTextFor (postSend adapter reg sessionId to' text).status,
       (postSend adapter reg sessionId to' text).registry,
       (postSend adapter reg sessionId to' text).sends⟩ := by
  by_cases hc : (truthy sessionId && truthy to' && truthy text) = true
  · cases hf : find? reg (sessionId.getD "") with
    | none => simp [postSend, getSend, plainTextFor, hc, hf]
    | some s =>
      cases hr : s.ready with
      | false => simp [postSend, getSend, plainTextFor, hc, hf, hr]
      | true =>
        cases hm : adapter s.clientId (toChatId (to'.getD "")) (text.getD "") <;>
          simp [postSend, getSend, plainTextFor, hc, hf, hr, hm]
  · simp [postSend, getSend, plainTextFor, hc]

end Server
